import Mathlib

/-!
Verification of the GPU device and resource-lifecycle layer of the goldfish
rendering engine (Vulkan backend).  The definitions below are a shallow
embedding of the Rust source:

* `src/engine/renderer/backends/vulkan/device.rs` — queue-family resolution
  (`find_queue_families`), device scoring (`rate_device_suitability`),
  physical-device selection (the loop in `VulkanDevice::new`),
  `graphics_queue_submit`, and the upload context (`submit` / `wait_submit`);
* `src/engine/renderer/backends/vulkan/shader.rs` — `create_shader`,
  `destroy_shader`;
* `crates/goldfish/src/engine/renderer/backends/vulkan/texture.rs` —
  `create_texture`, `destroy_texture`, and `PartialEq for VulkanTexture`.

Machine integers (`u32`) are modelled as `Nat`; Vulkan bit-flag sets are `Nat`
bit masks using the numeric values of the Vulkan C enums, with flag containment
expressed as `flags &&& bit = bit`.  External Vulkan entry points (object
creation, queue submission, fence operations) are modelled by the descriptor
records the code passes to them and by traces of the calls the code makes, in
the order the code makes them.
-/

namespace Goldfish

/-- Vulkan queue-capability bit `VK_QUEUE_GRAPHICS_BIT`. -/
def QUEUE_GRAPHICS : Nat := 0x1

/-- Vulkan queue-capability bit `VK_QUEUE_COMPUTE_BIT`. -/
def QUEUE_COMPUTE : Nat := 0x2

/-- One record of `vkGetPhysicalDeviceQueueFamilyProperties` as
`find_queue_families` consumes it: the family's `queue_flags`, together with
the result of the per-family surface-support query
`get_physical_device_surface_support(dev, i, surface).unwrap_or(false)`. -/
structure QueueFamilyProps where
  queue_flags : Nat
  present_support : Bool
deriving DecidableEq, Repr

/-- Test of the source's first branch:
`prop.queue_flags.contains(QueueFlags::GRAPHICS | QueueFlags::COMPUTE)`. -/
def has_graphics_and_compute (p : QueueFamilyProps) : Bool :=
  p.queue_flags &&& (QUEUE_GRAPHICS ||| QUEUE_COMPUTE) == QUEUE_GRAPHICS ||| QUEUE_COMPUTE

/-- Test of the source's second branch:
`prop.queue_flags.contains(QueueFlags::COMPUTE)`. -/
def has_compute (p : QueueFamilyProps) : Bool :=
  p.queue_flags &&& QUEUE_COMPUTE == QUEUE_COMPUTE

/-- The `QueueFamilyIndices` struct of device.rs. -/
structure QueueFamilyIndices where
  graphics_family : Nat
  compute_family : Nat
  present_family : Nat
deriving DecidableEq, Repr

/-- The loop body of the `find_queue_families` closure in `VulkanDevice::new`
(device.rs lines 173–213): one pass over the family records with index `i`,
updating the three trackers exactly as the source does and returning as soon
as all three are assigned. -/
def find_queue_families_go :
    List QueueFamilyProps → Nat → Option Nat → Option Nat → Option Nat →
    Option QueueFamilyIndices
  | [], _, _, _, _ => none
  | p :: rest, i, graphics_family, compute_family, present_family =>
    let graphics_family' :=
      if has_graphics_and_compute p then some i else graphics_family
    let compute_family' :=
      if has_graphics_and_compute p then some i
      else if has_compute p then some i
      else compute_family
    let present_family' :=
      if p.present_support then some i else present_family
    match graphics_family', compute_family', present_family' with
    | some g, some c, some pr =>
      some { graphics_family := g, compute_family := c, present_family := pr }
    | _, _, _ =>
      find_queue_families_go rest (i + 1) graphics_family' compute_family'
        present_family'

/-- The `find_queue_families` closure of device.rs, started on the full list
of family records with all three trackers unassigned. -/
def find_queue_families (props : List QueueFamilyProps) :
    Option QueueFamilyIndices :=
  find_queue_families_go props 0 none none none

/-! ## Physical-device scoring and selection (device.rs lines 215–263) -/

/-- The `vk::PhysicalDeviceType` values `rate_device_suitability` inspects. -/
inductive PhysicalDeviceType
  | DISCRETE_GPU
  | INTEGRATED_GPU
  | VIRTUAL_GPU
  | CPU
  | OTHER
deriving DecidableEq, Repr

/-- Outcomes of the three surface queries
(`get_physical_device_surface_capabilities` / `_formats` / `_present_modes`)
for one device, each `some` when the driver call returned `Ok`.  The payloads
are opaque to this layer and modelled as numbers. -/
structure SurfaceQueryOutcomes where
  capabilities : Option Nat
  surface_formats : Option (List Nat)
  present_modes : Option (List Nat)
deriving DecidableEq, Repr

/-- The `SwapchainDetails` struct of device.rs. -/
structure SwapchainDetails where
  capabilities : Nat
  surface_formats : List Nat
  present_modes : List Nat
deriving DecidableEq, Repr

/-- A physical device as the selector observes it: its queue-family records,
the outcomes of its surface queries, and the two properties the scoring reads
(`device_type` and `limits.max_image_dimension2_d`). -/
structure PhysicalDevice where
  families : List QueueFamilyProps
  surface_queries : SurfaceQueryOutcomes
  device_type : PhysicalDeviceType
  max_image_dimension2_d : Nat
deriving DecidableEq, Repr

/-- The function `query_swapchain_support_physical_device` of device.rs
(lines 414–438): `Some` exactly when all three surface queries return `Ok`. -/
def query_swapchain_support (d : PhysicalDevice) : Option SwapchainDetails :=
  match d.surface_queries.capabilities, d.surface_queries.surface_formats,
      d.surface_queries.present_modes with
  | some caps, some fmts, some modes =>
    some { capabilities := caps, surface_formats := fmts, present_modes := modes }
  | _, _, _ => none

/-- The score the `match` on `properties.device_type` adds in
`rate_device_suitability`. -/
def device_type_score : PhysicalDeviceType → Nat
  | .DISCRETE_GPU => 1000
  | .INTEGRATED_GPU => 1
  | _ => 0

/-- The `rate_device_suitability` closure of device.rs (lines 215–240): zero
unless both queue-family resolution and the swapchain-support query succeed,
otherwise the device-type score plus `limits.max_image_dimension2_d`. -/
def rate_device_suitability (d : PhysicalDevice) : Nat :=
  match find_queue_families d.families, query_swapchain_support d with
  | some _, some _ => device_type_score d.device_type + d.max_image_dimension2_d
  | _, _ => 0

/-- The selection loop of `VulkanDevice::new` (device.rs lines 251–261):
running `best_score` starts at 0, `best_dev` at `None`, and a device replaces
the incumbent only when its score is strictly greater. -/
def select_physical_device_go :
    List PhysicalDevice → Nat → Option PhysicalDevice → Option PhysicalDevice
  | [], _, best_dev => best_dev
  | dev :: rest, best_score, best_dev =>
    if rate_device_suitability dev > best_score then
      select_physical_device_go rest (rate_device_suitability dev) (some dev)
    else
      select_physical_device_go rest best_score best_dev

/-- Physical-device selection in `VulkanDevice::new` (device.rs lines
242–263).  The two fatal `panic` / failed `expect` paths — an empty device
list, and a loop that never found a positive score — are both modelled as
`none`. -/
def select_physical_device (devs : List PhysicalDevice) :
    Option PhysicalDevice :=
  if devs.length = 0 then none
  else select_physical_device_go devs 0 none

/-- The greatest suitability score over a device list (0 when empty). -/
def max_suitability (devs : List PhysicalDevice) : Nat :=
  devs.foldr (fun d m => max (rate_device_suitability d) m) 0

/-! ## Texture creation (texture.rs lines 38–167) -/

/-- Vulkan image-usage bit `VK_IMAGE_USAGE_TRANSFER_SRC_BIT`. -/
def IMAGE_USAGE_TRANSFER_SRC : Nat := 0x1

/-- Vulkan image-usage bit `VK_IMAGE_USAGE_TRANSFER_DST_BIT`. -/
def IMAGE_USAGE_TRANSFER_DST : Nat := 0x2

/-- Vulkan image-usage bit `VK_IMAGE_USAGE_SAMPLED_BIT`. -/
def IMAGE_USAGE_SAMPLED : Nat := 0x4

/-- Vulkan image-usage bit `VK_IMAGE_USAGE_STORAGE_BIT`. -/
def IMAGE_USAGE_STORAGE : Nat := 0x8

/-- Vulkan image-usage bit `VK_IMAGE_USAGE_COLOR_ATTACHMENT_BIT`. -/
def IMAGE_USAGE_COLOR_ATTACHMENT : Nat := 0x10

/-- Vulkan image-usage bit `VK_IMAGE_USAGE_DEPTH_STENCIL_ATTACHMENT_BIT`. -/
def IMAGE_USAGE_DEPTH_STENCIL_ATTACHMENT : Nat := 0x20

/-- Vulkan image-creation bit `VK_IMAGE_CREATE_CUBE_COMPATIBLE_BIT`. -/
def IMAGE_CREATE_CUBE_COMPATIBLE : Nat := 0x10

/-- Vulkan image-aspect bit `VK_IMAGE_ASPECT_COLOR_BIT`. -/
def IMAGE_ASPECT_COLOR : Nat := 0x1

/-- Vulkan image-aspect bit `VK_IMAGE_ASPECT_DEPTH_BIT`. -/
def IMAGE_ASPECT_DEPTH : Nat := 0x2

/-- Modelled from the spec: the portable `TextureFormat` enum of
`crate::renderer` is not under src/ (only its uses in texture.rs are).  Per
the spec it has a `Depth` format, formats that denote cubemaps, and ordinary
color formats; texture.rs consumes it only through `format == Depth` and
`format.is_cubemap()`.  One representative of each class is modelled. -/
inductive TextureFormat
  | RGBA8
  | CubemapRGBA8
  | Depth
deriving DecidableEq, Repr

/-- The `is_cubemap` test texture.rs calls on a `TextureFormat`: true for the
cubemap formats only. -/
def TextureFormat.is_cubemap : TextureFormat → Bool
  | .CubemapRGBA8 => true
  | _ => false

/-- Modelled from the spec: the portable `TextureUsage` bit-set of
`crate::renderer` is not under src/; texture.rs consumes it only through
`usage.contains(...)` for the five named bits, modelled as one flag each. -/
structure TextureUsage where
  attachment : Bool
  sampled : Bool
  transfer_src : Bool
  transfer_dst : Bool
  storage : Bool
deriving DecidableEq, Repr

/-- The `vk::ImageSubresourceRange` value built in texture.rs lines
130–139. -/
structure ImageSubresourceRange where
  aspect_mask : Nat
  base_mip_level : Nat
  level_count : Nat
  base_array_layer : Nat
  layer_count : Nat
deriving DecidableEq, Repr

/-- The `vk::ImageViewType` values texture.rs chooses between. -/
inductive ImageViewType
  | TYPE_2D
  | CUBE
deriving DecidableEq, Repr

/-- The descriptors `create_texture` (texture.rs lines 39–167) passes to the
driver: the `ImageCreateInfo` fields the code computes (usage flags, creation
flags, extent, mip levels, array layers), the subresource range, and the
image-view type.  Driver-returned handles are not part of the record. -/
structure TextureCreateRecord where
  usage_flags : Nat
  create_flags : Nat
  width : Nat
  height : Nat
  mip_levels : Nat
  array_layers : Nat
  subresource_range : ImageSubresourceRange
  view_type : ImageViewType
deriving DecidableEq, Repr

/-- The pure content of `VulkanDevice::create_texture`: the usage-flag
translation (lines 40–64), the image-creation parameters (lines 71–93), the
subresource range (lines 130–139) and the view type (line 146), computed
exactly as the source computes them. -/
def create_texture (width height : Nat) (format : TextureFormat)
    (usage : TextureUsage) : TextureCreateRecord :=
  let usage_flags : Nat := 0
  let usage_flags :=
    if usage.attachment then
      if format = TextureFormat.Depth then
        usage_flags ||| IMAGE_USAGE_DEPTH_STENCIL_ATTACHMENT
      else
        usage_flags ||| IMAGE_USAGE_COLOR_ATTACHMENT
    else usage_flags
  let usage_flags :=
    if usage.sampled then usage_flags ||| IMAGE_USAGE_SAMPLED else usage_flags
  let usage_flags :=
    if usage.transfer_src then usage_flags ||| IMAGE_USAGE_TRANSFER_SRC
    else usage_flags
  let usage_flags :=
    if usage.transfer_dst then usage_flags ||| IMAGE_USAGE_TRANSFER_DST
    else usage_flags
  let usage_flags :=
    if usage.storage then usage_flags ||| IMAGE_USAGE_STORAGE else usage_flags
  { usage_flags := usage_flags
    create_flags :=
      if format.is_cubemap then IMAGE_CREATE_CUBE_COMPATIBLE else 0
    width := width
    height := height
    mip_levels := 1
    array_layers := if format.is_cubemap then 6 else 1
    subresource_range :=
      { aspect_mask :=
          match format with
          | TextureFormat.Depth => IMAGE_ASPECT_DEPTH
          | _ => IMAGE_ASPECT_COLOR
        base_mip_level := 0
        level_count := 1
        base_array_layer := 0
        layer_count := if format.is_cubemap then 6 else 1 }
    view_type :=
      if format.is_cubemap then ImageViewType.CUBE else ImageViewType.TYPE_2D }

/-! ## Textures, shaders and their destruction -/

/-- The `VulkanTexture` struct of texture.rs (lines 8–20).  The driver handles
(`vk::Image`, `vk::Sampler`, `vk::ImageView`) and the allocator's allocation
are opaque and modelled as numbers. -/
structure VulkanTexture where
  width : Nat
  height : Nat
  image : Nat
  sampler : Nat
  image_view : Nat
  subresource_range : ImageSubresourceRange
  allocation : Nat
  format : TextureFormat
  usage : TextureUsage
deriving DecidableEq, Repr

/-- The `PartialEq for VulkanTexture` implementation (texture.rs lines
30–34): handle-triple comparison. -/
def VulkanTexture.eq (a b : VulkanTexture) : Bool :=
  a.image == b.image && a.sampler == b.sampler && a.image_view == b.image_view

/-- The `VulkanShader` struct of shader.rs: the module handle plus the
retained bytecode words. -/
structure VulkanShader where
  module : Nat
  code : List Nat
deriving DecidableEq, Repr

/-- The `VulkanDestructor` variants: the four used by `destroy_texture` in
texture.rs, plus the `ShaderModule` variant the spec lists.  The enum itself
is declared in the crates-side device.rs, which is not under src/; the
variants are taken from its uses in texture.rs and from the spec. -/
inductive VulkanDestructor
  | Image (handle : Nat)
  | ImageView (handle : Nat)
  | Sampler (handle : Nat)
  | ShaderModule (handle : Nat)
  | Allocation (handle : Nat)
deriving DecidableEq, Repr

/-- One observable device-level call a destroy operation makes: either a
single batch handed to the deferred destruction queue
(`self.queue_destruction(&mut [...])`), or an immediate driver destruction
call (`destroy_shader_module`). -/
inductive DeviceCall
  | QueueDestruction (batch : List VulkanDestructor)
  | DestroyShaderModule (handle : Nat)
deriving DecidableEq, Repr

/-- The destructor batch `destroy_texture` builds (texture.rs lines
170–175), in source order. -/
def texture_destructors (t : VulkanTexture) : List VulkanDestructor :=
  [VulkanDestructor.Image t.image,
   VulkanDestructor.ImageView t.image_view,
   VulkanDestructor.Sampler t.sampler,
   VulkanDestructor.Allocation t.allocation]

/-- The calls `VulkanDevice::destroy_texture` makes (texture.rs lines
169–176): one `queue_destruction` call carrying the four destructors. -/
def destroy_texture (t : VulkanTexture) : List DeviceCall :=
  [DeviceCall.QueueDestruction (texture_destructors t)]

/-- The calls `VulkanDevice::destroy_shader` makes (shader.rs lines 26–31):
a single immediate `destroy_shader_module` driver call. -/
def destroy_shader (s : VulkanShader) : List DeviceCall :=
  [DeviceCall.DestroyShaderModule s.module]

/-- The deferred-destruction state of a device: the batches enqueued but not
yet executed, and the destructors already physically freed. -/
structure DeviceState where
  pending : List (List VulkanDestructor)
  freed : List VulkanDestructor
deriving DecidableEq, Repr

/-- Modelled from the spec: the `queue_destruction` method and the deferred
destruction queue live in the crates-side device.rs, which is not under src/.
Per spec §4.6 an enqueued batch is retained as one unit and nothing is freed
at enqueue time, while an immediate driver destruction call frees its object
at once. -/
def apply_call (s : DeviceState) : DeviceCall → DeviceState
  | DeviceCall.QueueDestruction batch => { s with pending := s.pending ++ [batch] }
  | DeviceCall.DestroyShaderModule h =>
    { s with freed := s.freed ++ [VulkanDestructor.ShaderModule h] }

/-- Run a list of device calls against a deferred-destruction state. -/
def run_calls (s : DeviceState) (calls : List DeviceCall) : DeviceState :=
  calls.foldl apply_call s

/-- Observable teardown events: the device-wide idle wait and the physical
release of one destructor. -/
inductive GpuEvent
  | WaitIdle
  | Free (d : VulkanDestructor)
deriving DecidableEq, Repr

/-- Modelled from the spec: per §4.6 the shutdown path performs a full idle
wait and only then finalizes the still-queued destruction batches (the
src-side `VulkanDevice::destroy`, device.rs lines 455–468, likewise calls
`wait_idle` before any teardown step). -/
def device_teardown_trace (s : DeviceState) : List GpuEvent :=
  GpuEvent.WaitIdle :: s.pending.flatten.map GpuEvent.Free

/-- The `Free` events a trace performs before its first idle wait. -/
def frees_before_first_idle : List GpuEvent → List GpuEvent
  | [] => []
  | GpuEvent.WaitIdle :: _ => []
  | GpuEvent.Free d :: rest => GpuEvent.Free d :: frees_before_first_idle rest

/-! ## The upload context (device.rs lines 382–396 and 476–529) -/

/-- A fence as the upload context distinguishes them: the context's own fence
or a caller-supplied external one. -/
inductive FenceId
  | own
  | external (n : Nat)
deriving DecidableEq, Repr

/-- The calls `VulkanUploadContext::submit` / `wait_submit` make, in order.
The caller-supplied recording closure is opaque to this layer and modelled as
the single `RecordClosure` event. -/
inductive UploadEvent
  | BeginCommandBuffer
  | RecordClosure
  | EndCommandBuffer
  | ResetFence (f : FenceId)
  | QueueSubmit (f : FenceId)
  | RecyclePool
  | WaitFence (f : FenceId)
deriving DecidableEq, Repr

/-- The calls `VulkanDevice::graphics_queue_submit` makes (device.rs lines
382–396): reset the fence, then submit to the graphics queue gated by it. -/
def graphics_queue_submit_trace (f : FenceId) : List UploadEvent :=
  [UploadEvent.ResetFence f, UploadEvent.QueueSubmit f]

/-- The calls `VulkanUploadContext::submit` makes (device.rs lines 499–513):
begin recording, run the closure, end recording, submit gated by
`fence.unwrap_or(&self.fence)`, recycle the pool. -/
def submit_trace (fence : Option FenceId) : List UploadEvent :=
  [UploadEvent.BeginCommandBuffer, UploadEvent.RecordClosure,
   UploadEvent.EndCommandBuffer]
  ++ graphics_queue_submit_trace (fence.getD FenceId.own)
  ++ [UploadEvent.RecyclePool]

/-- The calls `VulkanUploadContext::wait_submit` makes (device.rs lines
515–528): begin recording, run the closure, end recording, submit gated by
the context's own fence, recycle the pool. -/
def wait_submit_trace : List UploadEvent :=
  [UploadEvent.BeginCommandBuffer, UploadEvent.RecordClosure,
   UploadEvent.EndCommandBuffer]
  ++ graphics_queue_submit_trace FenceId.own
  ++ [UploadEvent.RecyclePool]

/-- Whether an upload-context event is a fence wait. -/
def is_fence_wait : UploadEvent → Bool
  | UploadEvent.WaitFence _ => true
  | _ => false

/-! ## Specification-side descriptions of the queue-family resolver

These definitions restate, in the spec's vocabulary, what the resolver is
claimed (and, after amendment, proved) to compute; they are compared against
the source embedding `find_queue_families` above. -/

/-- A family the resolver may assign to `compute_family`: one taken by either
of the two branches that write that tracker (combined, or compute-capable). -/
def compute_capable (p : QueueFamilyProps) : Bool :=
  has_graphics_and_compute p || has_compute p

/-- A family reporting presentation support. -/
def present_capable (p : QueueFamilyProps) : Bool :=
  p.present_support

/-- Index of the first family offering combined graphics+compute capability,
as the spec's words describe the graphics assignment. -/
def first_combined_idx (props : List QueueFamilyProps) : Option Nat :=
  props.findIdx? has_graphics_and_compute

/-- Index of the first family reporting presentation support, as the spec's
words describe the present assignment. -/
def first_present_idx (props : List QueueFamilyProps) : Option Nat :=
  props.findIdx? present_capable

/-- Length of the shortest prefix of the family list that contains both a
combined graphics+compute family and a present-capable family, the point at
which the resolver's early exit fires; `hasG` / `hasPr` say whether such a
family was already seen before the list. -/
def firstCompletion (hasG hasPr : Bool) :
    List QueueFamilyProps → Option Nat
  | [] => none
  | p :: rest =>
    let hasG' := hasG || has_graphics_and_compute p
    let hasPr' := hasPr || present_capable p
    if hasG' && hasPr' then some 1
    else (firstCompletion hasG' hasPr' rest).map (· + 1)

/-- Index of the last element of the list satisfying `q`, counting from base
index `i`, with `acc` the last index seen before the list. -/
def lastIdxFrom (q : QueueFamilyProps → Bool) :
    List QueueFamilyProps → Nat → Option Nat → Option Nat
  | [], _, acc => acc
  | p :: rest, i, acc => lastIdxFrom q rest (i + 1) (if q p then some i else acc)

/-- The amended description of the resolver: on the shortest prefix that
contains both a combined graphics+compute family and a present-capable
family, `graphics_family` is the last combined index, `compute_family` the
last compute-capable index, `present_family` the last present-capable index;
`none` when no such prefix exists. -/
def spec_resolve (props : List QueueFamilyProps) : Option QueueFamilyIndices :=
  match firstCompletion false false props with
  | none => none
  | some n =>
    some { graphics_family :=
             (lastIdxFrom has_graphics_and_compute (props.take n) 0 none).getD 0
         , compute_family :=
             (lastIdxFrom compute_capable (props.take n) 0 none).getD 0
         , present_family :=
             (lastIdxFrom present_capable (props.take n) 0 none).getD 0 }

/-- The claim's description of the resolver's assignments, quoted for
refutation: whenever resolution succeeds, `graphics_family` is the first
combined family index and `present_family` the first present-capable index. -/
def resolver_first_claim : Prop :=
  ∀ (props : List QueueFamilyProps) (qfi : QueueFamilyIndices),
    find_queue_families props = some qfi →
    first_combined_idx props = some qfi.graphics_family ∧
    first_present_idx props = some qfi.present_family

/-- The claim's description of a factory destroy operation: its whole effect
is a single batch handed to the deferred destruction queue. -/
def deferred_batch_only (calls : List DeviceCall) : Prop :=
  ∃ batch, calls = [DeviceCall.QueueDestruction batch]

/-! ## Theorems -/

example :
    find_queue_families
      [⟨QUEUE_COMPUTE, true⟩, ⟨0, false⟩,
       ⟨QUEUE_GRAPHICS ||| QUEUE_COMPUTE, false⟩] =
    some { graphics_family := 2, compute_family := 2, present_family := 0 } := by
  decide

example :
    find_queue_families [⟨QUEUE_GRAPHICS ||| QUEUE_COMPUTE, false⟩] = none := by
  decide

theorem isSome_map_succ (o : Option Nat) : (o.map (· + 1)).isSome = o.isSome := by
  cases o <;> rfl

theorem firstCompletion_isSome (l : List QueueFamilyProps) :
    ∀ (hasG hasPr : Bool), (hasG && hasPr) = false →
    (firstCompletion hasG hasPr l).isSome =
      ((hasG || l.any has_graphics_and_compute) &&
       (hasPr || l.any present_capable)) := by
  induction l with
  | nil =>
    intro hasG hasPr hinv
    simp_all [firstCompletion]
  | cons p rest ih =>
    intro hasG hasPr hinv
    cases hG : hasG <;> cases hPr : hasPr <;>
      cases hcb : has_graphics_and_compute p <;> cases hps : present_capable p <;>
      simp_all [firstCompletion, isSome_map_succ, List.any_cons]

theorem find_queue_families_go_eq_spec (props : List QueueFamilyProps) :
    ∀ (i : Nat) (g c pr : Option Nat),
    (g.isSome = true → c.isSome = true) →
    (g.isSome && pr.isSome) = false →
    find_queue_families_go props i g c pr =
      (match firstCompletion g.isSome pr.isSome props with
      | none => none
      | some n =>
        some { graphics_family :=
                 (lastIdxFrom has_graphics_and_compute (props.take n) i g).getD 0
             , compute_family :=
                 (lastIdxFrom compute_capable (props.take n) i c).getD 0
             , present_family :=
                 (lastIdxFrom present_capable (props.take n) i pr).getD 0 }) := by
  induction props with
  | nil => intro i g c pr _ _; rfl
  | cons p rest ih =>
    intro i g c pr hgc hgpr
    simp only [find_queue_families_go]
    cases hcb : has_graphics_and_compute p <;> cases hps : p.present_support <;>
      simp only [if_true, if_false, Bool.false_eq_true, Bool.true_eq_false]
    · cases g with
      | some a =>
        cases pr with
        | some b => simp at hgpr
        | none =>
          obtain ⟨b, rfl⟩ := Option.isSome_iff_exists.mp (hgc rfl)
          cases hcc : has_compute p <;>
            simp only [if_true, if_false, Bool.false_eq_true] <;>
            rw [ih (i + 1) (some a) _ none (by simp) (by simp)] <;>
            simp only [Option.isSome_some, Option.isSome_none, firstCompletion,
              present_capable, hcb, hps, Bool.or_false, Bool.true_or,
              Bool.and_false, Bool.false_and, if_false, Bool.false_eq_true] <;>
            cases hfc : firstCompletion true false rest <;>
            simp [hfc, List.take_succ_cons, lastIdxFrom, compute_capable,
              present_capable, hcb, hcc, hps]
      | none =>
        cases hcc : has_compute p <;>
          simp only [if_true, if_false, Bool.false_eq_true] <;>
          rw [ih (i + 1) none _ pr (by simp) (by simp)] <;>
          simp only [Option.isSome_none, firstCompletion, present_capable, hcb,
            hps, Bool.or_false, Bool.false_or, Bool.false_and, if_false,
            Bool.false_eq_true] <;>
          cases hfc : firstCompletion false pr.isSome rest <;>
          simp [hfc, List.take_succ_cons, lastIdxFrom, compute_capable,
            present_capable, hcb, hcc, hps]
    · cases g with
      | some a =>
        cases pr with
        | some b => simp at hgpr
        | none =>
          obtain ⟨b, rfl⟩ := Option.isSome_iff_exists.mp (hgc rfl)
          cases hcc : has_compute p <;>
            simp [firstCompletion, present_capable, hcb, hps, hcc,
              lastIdxFrom, compute_capable]
      | none =>
        cases hcc : has_compute p <;>
          simp only [if_true, if_false, Bool.false_eq_true] <;>
          rw [ih (i + 1) none _ (some i) (by simp) (by simp)] <;>
          simp only [Option.isSome_none, Option.isSome_some, firstCompletion,
            present_capable, hcb, hps, Bool.or_true, Bool.or_false,
            Bool.false_or, Bool.false_and, if_false, Bool.false_eq_true] <;>
          cases hfc : firstCompletion false true rest <;>
          simp [hfc, List.take_succ_cons, lastIdxFrom, compute_capable,
            present_capable, hcb, hcc, hps]
    · cases pr with
      | some b =>
        have hg : g = none := by
          cases g with
          | none => rfl
          | some a => simp at hgpr
        subst hg
        simp [firstCompletion, present_capable, hcb, hps, lastIdxFrom,
          compute_capable]
      | none =>
        simp only [if_true, if_false, Bool.false_eq_true]
        rw [ih (i + 1) (some i) (some i) none (by simp) (by simp)]
        simp only [Option.isSome_none, Option.isSome_some, firstCompletion,
          present_capable, hcb, hps, Bool.or_true, Bool.or_false,
          Bool.false_or, Bool.true_and, Bool.and_false, if_false,
          Bool.false_eq_true]
        cases hfc : firstCompletion true false rest <;>
        simp [hfc, List.take_succ_cons, lastIdxFrom, compute_capable,
          present_capable, hcb, hps]
    · simp [firstCompletion, present_capable, hcb, hps, lastIdxFrom,
        compute_capable, Bool.or_true]

theorem find_queue_families_isSome (props : List QueueFamilyProps) :
    (find_queue_families props).isSome =
      (props.any has_graphics_and_compute && props.any present_capable) := by
  have h := find_queue_families_go_eq_spec props 0 none none none
    (by simp) (by simp)
  have h2 := firstCompletion_isSome props false false rfl
  rw [find_queue_families, h]
  simp only [Option.isSome_none]
  cases hfc : firstCompletion false false props <;>
    rw [hfc] at h2 <;>
    simp only [Option.isSome_none, Option.isSome_some, Bool.false_or] at h2 <;>
    simpa using h2

/-- C3 (counterexample): on the family list with a combined graphics+compute
family at index 0 lacking presentation support and a combined family at index
1 with presentation support, the resolver returns graphics_family 1, not the
first combined index 0: the second combined family overwrites the tracker
before the early exit fires, refuting the claim's first-index description. -/
theorem resolver_first_claim_false : ¬ resolver_first_claim := by
  intro hcl
  have h := hcl
    [{ queue_flags := 3, present_support := false },
     { queue_flags := 3, present_support := true }]
    { graphics_family := 1, compute_family := 1, present_family := 1 }
    (by decide)
  exact absurd h.1 (by decide)

/-- C3 (amended): the resolver stops at the shortest prefix of the family
list containing both a combined graphics+compute family and a present-capable
family; it returns the last combined index, the last compute-capable index
and the last present-capable index seen within that prefix (so the most
recent matching family before the early exit wins, not the first), and it
returns `some` exactly when the list holds both a combined family and a
present-capable family — `none` otherwise. -/
theorem find_queue_families_characterization (props : List QueueFamilyProps) :
    find_queue_families props = spec_resolve props ∧
    (find_queue_families props).isSome =
      (props.any has_graphics_and_compute && props.any present_capable) := by
  refine ⟨?_, find_queue_families_isSome props⟩
  have h := find_queue_families_go_eq_spec props 0 none none none
    (by simp) (by simp)
  rw [find_queue_families, h]
  rfl

/-- C4: the rating of a physical device is 0 whenever queue-family resolution
fails or any swapchain-support query fails — in particular whenever no family
reports presentation support — and otherwise is exactly the device-type score
(1000 discrete, 1 integrated, 0 otherwise) plus the maximum supported 2D
image dimension. -/
theorem rate_device_suitability_spec (d : PhysicalDevice) :
    ((find_queue_families d.families = none ∨ query_swapchain_support d = none) →
      rate_device_suitability d = 0) ∧
    ((∀ f ∈ d.families, f.present_support = false) →
      rate_device_suitability d = 0) ∧
    (∀ (qfi : QueueFamilyIndices) (sd : SwapchainDetails),
      find_queue_families d.families = some qfi →
      query_swapchain_support d = some sd →
      rate_device_suitability d =
        device_type_score d.device_type + d.max_image_dimension2_d) := by
  have hzero :
      ∀ hn : find_queue_families d.families = none ∨
        query_swapchain_support d = none, rate_device_suitability d = 0 := by
    rintro (h | h) <;>
      cases hf : find_queue_families d.families <;>
      cases hq : query_swapchain_support d <;>
      simp_all [rate_device_suitability]
  refine ⟨hzero, ?_, ?_⟩
  · intro hnp
    have hany : d.families.any present_capable = false := by
      rw [List.any_eq_false]
      intro f hf
      simp [present_capable, hnp f hf]
    have hs := find_queue_families_isSome d.families
    rw [hany, Bool.and_false] at hs
    exact hzero (Or.inl (Option.not_isSome_iff_eq_none.mp (by simp [hs])))
  · intro qfi sd h1 h2
    simp [rate_device_suitability, h1, h2]

/-- C9: two textures are equal exactly when their image, sampler and
image-view handles all match; since the comparison reads no other field, any
width, height, format, usage, subresource range or allocation is covered by
the quantification, and a single differing handle falsifies the right-hand
side and hence the equality. -/
theorem texture_eq_iff_handle_triple (a b : VulkanTexture) :
    VulkanTexture.eq a b = true ↔
      a.image = b.image ∧ a.sampler = b.sampler ∧ a.image_view = b.image_view := by
  simp [VulkanTexture.eq, Bool.and_eq_true, beq_iff_eq, and_assoc]

/-- C6: creating a texture with usage {SAMPLED, ATTACHMENT} and the Depth
format yields usage flags containing DEPTH_STENCIL_ATTACHMENT and SAMPLED but
not COLOR_ATTACHMENT, and a depth-only aspect mask, while every non-Depth
format yields a color aspect mask. -/
theorem create_texture_depth_attachment_sampled (w h : Nat) :
    ((create_texture w h TextureFormat.Depth
        { attachment := true, sampled := true, transfer_src := false,
          transfer_dst := false, storage := false }).usage_flags &&&
        IMAGE_USAGE_DEPTH_STENCIL_ATTACHMENT =
      IMAGE_USAGE_DEPTH_STENCIL_ATTACHMENT) ∧
    ((create_texture w h TextureFormat.Depth
        { attachment := true, sampled := true, transfer_src := false,
          transfer_dst := false, storage := false }).usage_flags &&&
        IMAGE_USAGE_SAMPLED = IMAGE_USAGE_SAMPLED) ∧
    ((create_texture w h TextureFormat.Depth
        { attachment := true, sampled := true, transfer_src := false,
          transfer_dst := false, storage := false }).usage_flags &&&
        IMAGE_USAGE_COLOR_ATTACHMENT = 0) ∧
    ((create_texture w h TextureFormat.Depth
        { attachment := true, sampled := true, transfer_src := false,
          transfer_dst := false, storage := false }).subresource_range.aspect_mask =
      IMAGE_ASPECT_DEPTH) ∧
    (∀ (fmt : TextureFormat) (u : TextureUsage), fmt ≠ TextureFormat.Depth →
      (create_texture w h fmt u).subresource_range.aspect_mask =
        IMAGE_ASPECT_COLOR) := by
  refine ⟨?_, ?_, ?_, ?_, ?_⟩
  · simp only [create_texture]; decide
  · simp only [create_texture]; decide
  · simp only [create_texture]; decide
  · simp [create_texture]
  · intro fmt u hne
    cases fmt <;> simp_all [create_texture]

/-- C7: a cubemap format yields 6 array layers, the cube-compatible creation
flag, a subresource range spanning 6 layers and a cube view type; a
non-cubemap format yields 1 array layer, no cube-compatible flag and a 2D
view type. -/
theorem create_texture_cubemap_shape (w h : Nat) (u : TextureUsage) :
    (∀ fmt : TextureFormat, fmt.is_cubemap = true →
      (create_texture w h fmt u).array_layers = 6 ∧
      (create_texture w h fmt u).create_flags &&& IMAGE_CREATE_CUBE_COMPATIBLE =
        IMAGE_CREATE_CUBE_COMPATIBLE ∧
      (create_texture w h fmt u).subresource_range.layer_count = 6 ∧
      (create_texture w h fmt u).view_type = ImageViewType.CUBE) ∧
    (∀ fmt : TextureFormat, fmt.is_cubemap = false →
      (create_texture w h fmt u).array_layers = 1 ∧
      (create_texture w h fmt u).create_flags &&& IMAGE_CREATE_CUBE_COMPATIBLE = 0 ∧
      (create_texture w h fmt u).subresource_range.layer_count = 1 ∧
      (create_texture w h fmt u).view_type = ImageViewType.TYPE_2D) := by
  constructor <;> intro fmt hc <;>
    cases fmt <;> simp_all [create_texture, TextureFormat.is_cubemap]

/-- C10: `wait_submit` makes exactly the calls `submit` makes when no
external fence is supplied — begin recording, invoke the closure, end
recording, reset the context's own fence, submit gated by it, recycle the
pool — and neither path performs any further step, in particular no fence
wait. -/
theorem wait_submit_eq_submit_none :
    wait_submit_trace = submit_trace none ∧
    wait_submit_trace =
      [UploadEvent.BeginCommandBuffer, UploadEvent.RecordClosure,
       UploadEvent.EndCommandBuffer, UploadEvent.ResetFence FenceId.own,
       UploadEvent.QueueSubmit FenceId.own, UploadEvent.RecyclePool] := by
  exact ⟨rfl, rfl⟩

/-- C1 (against the code): `wait_submit` performs no fence wait at all — its
trace, like that of `submit` with an external fence, contains no `WaitFence`
call — so it returns without blocking on the context's own fence. -/
theorem wait_submit_performs_no_fence_wait :
    wait_submit_trace.filter is_fence_wait = [] ∧
    (submit_trace (some (FenceId.external 0))).filter is_fence_wait = [] := by
  exact ⟨rfl, rfl⟩

/-- C2 (counterexample): destroying the shader with module handle 7 performs
an immediate `destroy_shader_module` driver call and hands nothing to the
deferred destruction queue, refuting the claim that both factories' destroy
operations defer their constituents as one batch. -/
theorem destroy_shader_not_deferred :
    ¬ deferred_batch_only (destroy_shader { module := 7, code := [1, 2, 3] }) := by
  rintro ⟨batch, hb⟩
  simp [destroy_shader, deferred_batch_only] at hb

/-- C2 (amended): `destroy_texture` hands its four constituents to the
deferred destruction queue as one batch and performs no immediate
destruction, while `destroy_shader` destroys the shader module immediately
and enqueues nothing. -/
theorem destroy_calls_spec (t : VulkanTexture) (s : VulkanShader) :
    destroy_texture t = [DeviceCall.QueueDestruction (texture_destructors t)] ∧
    deferred_batch_only (destroy_texture t) ∧
    destroy_shader s = [DeviceCall.DestroyShaderModule s.module] ∧
    ∀ batch, DeviceCall.QueueDestruction batch ∉ destroy_shader s := by
  refine ⟨rfl, ⟨texture_destructors t, rfl⟩, rfl, ?_⟩
  intro batch hmem
  simp [destroy_shader] at hmem

/-- C8: destroying a texture enqueues exactly four destruction requests —
image, image view, sampler, allocation — through a single batch call to the
deferred destruction queue; the call frees nothing immediately, and in the
teardown trace no destructor is freed before the device-wide idle wait. -/
theorem destroy_texture_four_deferred (t : VulkanTexture) (s : DeviceState) :
    destroy_texture t = [DeviceCall.QueueDestruction (texture_destructors t)] ∧
    texture_destructors t =
      [VulkanDestructor.Image t.image, VulkanDestructor.ImageView t.image_view,
       VulkanDestructor.Sampler t.sampler,
       VulkanDestructor.Allocation t.allocation] ∧
    (texture_destructors t).length = 4 ∧
    (run_calls s (destroy_texture t)).freed = s.freed ∧
    (run_calls s (destroy_texture t)).pending =
      s.pending ++ [texture_destructors t] ∧
    frees_before_first_idle
      (device_teardown_trace (run_calls s (destroy_texture t))) = [] := by
  refine ⟨rfl, rfl, rfl, ?_, ?_, ?_⟩ <;>
    simp [run_calls, destroy_texture, apply_call, device_teardown_trace,
      frees_before_first_idle]


theorem select_go_eq (l : List PhysicalDevice) :
    ∀ (s : Nat) (b : Option PhysicalDevice),
    select_physical_device_go l s b =
      (if s < max_suitability l then
        l.find? (fun d => rate_device_suitability d == max_suitability l)
      else b) := by
  induction l with
  | nil =>
    intro s b
    simp [select_physical_device_go, max_suitability]
  | cons d rest ih =>
    intro s b
    have hmax : max_suitability (d :: rest) =
        max (rate_device_suitability d) (max_suitability rest) := rfl
    rcases Nat.lt_or_ge s (rate_device_suitability d) with hr | hr
    · rcases Nat.lt_or_ge (rate_device_suitability d) (max_suitability rest)
        with hm | hm
      · have hmx : max (rate_device_suitability d) (max_suitability rest) =
            max_suitability rest := Nat.max_eq_right (Nat.le_of_lt hm)
        have hne : (rate_device_suitability d == max_suitability rest) = false :=
          beq_eq_false_iff_ne.mpr (Nat.ne_of_lt hm)
        rw [select_physical_device_go, if_pos hr, ih, hmax, hmx,
          if_pos hm, if_pos (Nat.lt_trans hr hm),
          List.find?_cons_of_neg rest (by simp [hne])]
      · have hmx : max (rate_device_suitability d) (max_suitability rest) =
            rate_device_suitability d := Nat.max_eq_left hm
        have heq : (rate_device_suitability d == rate_device_suitability d) = true :=
          beq_self_eq_true _
        rw [select_physical_device_go, if_pos hr, ih, hmax, hmx,
          if_neg (Nat.not_lt.mpr hm), if_pos hr,
          List.find?_cons_of_pos rest heq]
    · rcases Nat.lt_or_ge s (max_suitability rest) with hm | hm
      · have hrm : rate_device_suitability d < max_suitability rest :=
          Nat.lt_of_le_of_lt hr hm
        have hmx : max (rate_device_suitability d) (max_suitability rest) =
            max_suitability rest := Nat.max_eq_right (Nat.le_of_lt hrm)
        have hne : (rate_device_suitability d == max_suitability rest) = false :=
          beq_eq_false_iff_ne.mpr (Nat.ne_of_lt hrm)
        rw [select_physical_device_go, if_neg (Nat.not_lt.mpr hr), ih, hmax, hmx,
          if_pos hm, if_pos hm,
          List.find?_cons_of_neg rest (by simp [hne])]
      · have hmx : max (rate_device_suitability d) (max_suitability rest) ≤ s :=
          Nat.max_le.mpr ⟨hr, hm⟩
        rw [select_physical_device_go, if_neg (Nat.not_lt.mpr hr), ih, hmax,
          if_neg (Nat.not_lt.mpr hm), if_neg (Nat.not_lt.mpr hmx)]

theorem rate_le_max_suitability (l : List PhysicalDevice) :
    ∀ d ∈ l, rate_device_suitability d ≤ max_suitability l := by
  induction l with
  | nil => intro d hd; cases hd
  | cons e rest ih =>
    intro d hd
    rcases List.mem_cons.mp hd with rfl | hd
    · exact Nat.le_max_left _ _
    · exact Nat.le_trans (ih d hd) (Nat.le_max_right _ _)

theorem max_suitability_eq_zero (l : List PhysicalDevice) :
    max_suitability l = 0 ↔ ∀ d ∈ l, rate_device_suitability d = 0 := by
  induction l with
  | nil => simp [max_suitability]
  | cons e rest ih =>
    have hmax : max_suitability (e :: rest) =
        max (rate_device_suitability e) (max_suitability rest) := rfl
    rw [hmax, Nat.max_eq_zero_iff, ih]
    constructor
    · rintro ⟨h1, h2⟩ d hd
      rcases List.mem_cons.mp hd with rfl | hd
      · exact h1
      · exact h2 d hd
    · intro h
      exact ⟨h e (List.mem_cons_self _ _),
        fun d hd => h d (List.mem_cons_of_mem _ hd)⟩


theorem max_suitability_attained (x : PhysicalDevice) (l : List PhysicalDevice) :
    ∃ d ∈ x :: l, rate_device_suitability d = max_suitability (x :: l) := by
  induction l generalizing x with
  | nil => exact ⟨x, List.mem_cons_self _ _, (Nat.max_zero _).symm⟩
  | cons y rest ih =>
    have hmax : max_suitability (x :: y :: rest) =
        max (rate_device_suitability x) (max_suitability (y :: rest)) := rfl
    rcases Nat.le_total (rate_device_suitability x) (max_suitability (y :: rest))
      with h | h
    · obtain ⟨d, hd, he⟩ := ih y
      exact ⟨d, List.mem_cons_of_mem _ hd, by
        rw [hmax, Nat.max_eq_right h]; exact he⟩
    · exact ⟨x, List.mem_cons_self _ _, by rw [hmax, Nat.max_eq_left h]⟩

/-- C5: physical-device selection fails fatally exactly when the enumerated
list is empty or every device scores 0; otherwise it returns a device with
strictly positive score that no device outscores, and every device enumerated
before it scores strictly less — so on equal scores the first-enumerated
device wins. -/
theorem select_physical_device_spec (devs : List PhysicalDevice) :
    (select_physical_device devs = none ↔
      devs = [] ∨ ∀ d ∈ devs, rate_device_suitability d = 0) ∧
    (∀ d, select_physical_device devs = some d →
      0 < rate_device_suitability d ∧
      (∀ e ∈ devs, rate_device_suitability e ≤ rate_device_suitability d) ∧
      ∃ pre post, devs = pre ++ d :: post ∧
        ∀ e ∈ pre, rate_device_suitability e < rate_device_suitability d) := by
  cases devs with
  | nil =>
    constructor
    · simp [select_physical_device]
    · intro d h
      simp [select_physical_device] at h
  | cons x rest =>
    have hsel : select_physical_device (x :: rest) =
        (if 0 < max_suitability (x :: rest) then
          (x :: rest).find?
            (fun d => rate_device_suitability d == max_suitability (x :: rest))
        else none) := by
      rw [select_physical_device, if_neg (by simp)]
      exact select_go_eq (x :: rest) 0 none
    rcases Nat.eq_zero_or_pos (max_suitability (x :: rest)) with hmx | hmx
    · rw [hsel, if_neg (by omega)]
      constructor
      · constructor
        · intro _
          exact Or.inr ((max_suitability_eq_zero _).mp hmx)
        · intro _
          rfl
      · intro d h
        simp at h
    · rw [hsel, if_pos hmx]
      obtain ⟨dm, hdm, hem⟩ := max_suitability_attained x rest
      constructor
      · constructor
        · intro hnone
          exfalso
          exact List.find?_eq_none.mp hnone dm hdm (by simp [hem])
        · rintro (h | hall)
          · cases h
          · exfalso
            have := (max_suitability_eq_zero (x :: rest)).mpr hall
            omega
      · intro d hfind
        have hsome := List.find?_some hfind
        have hd : rate_device_suitability d = max_suitability (x :: rest) := by
          simpa using hsome
        obtain ⟨hp, pre, post, heq, hpre⟩ := List.find?_eq_some.mp hfind
        refine ⟨by omega, ?_, pre, post, heq, ?_⟩
        · intro e he
          rw [hd]
          exact rate_le_max_suitability _ e he
        · intro e he
          have hle : rate_device_suitability e ≤ max_suitability (x :: rest) := by
            apply rate_le_max_suitability
            rw [heq]
            exact List.mem_append_left _ he
          have hne : rate_device_suitability e ≠ max_suitability (x :: rest) := by
            simpa using hpre e he
          rw [hd]
          exact Nat.lt_of_le_of_ne hle hne

end Goldfish
